import Mathlib

/-!
Verification of the Trident Pattern trading-bot core.

Shallow embedding of the pattern-detection and backtest-simulation code
(indicators, fair-value-gap detector, pattern validator, forward exit
simulator, sliding-window scan).  Prices are modelled as rationals, a
candle row carries its OHLC data, an abstract integer timestamp and the
indicator (EMA) columns; the time-of-day window classifiers are consumed
as black-box boolean predicates on timestamps, as the specification
prescribes.
-/

namespace ForexBot

/-- One row of the candle data frame: OHLC prices, an abstract integer
timestamp (the `time` column) and the indicator columns `ema_p`,
modelled as a function from the period `p` to the stored value. -/
structure Row where
  open_ : ℚ
  high : ℚ
  low : ℚ
  close : ℚ
  time : Int
  ema : Nat → ℚ

instance : Inhabited Row := ⟨⟨0, 0, 0, 0, 0, fun _ => 0⟩⟩

/-- Modelled from the spec: the externally supplied configuration
(`config.py` is not among the core sources).  Spec §6 lists the fast EMA
periods (ordered list), the trend EMA period, the doji body-ratio
threshold and the wick-prone-instrument flag (`GOLD_USE_HARD_SL`). -/
structure Config where
  EMA_FAST_PERIODS : List Nat
  EMA_TREND_PERIOD : Nat
  DOJI_BODY_RATIO : ℚ
  GOLD_USE_HARD_SL : Bool

/-- Modelled from the spec: the configured fast EMA periods, "an
ascending-by-speed list of configured fast periods (e.g., 5,9,13,21)";
the indicator docstring names the same four periods. -/
def EMA_FAST_PERIODS : List Nat := [5, 9, 13, 21]

/-- Python-style `iloc` indexing on a list: a non-negative index counts
from the front, a negative index counts from the back, and an
out-of-range index yields `none` (the `IndexError` path). -/
def pyGet (l : List α) (i : Int) : Option α :=
  if 0 ≤ i then l.get? i.toNat
  else if (-i).toNat ≤ l.length then l.get? (l.length - (-i).toNat)
  else none

/-- The inner loop of `are_emas_stacked` for direction `"long"`: walks
consecutive pairs and returns `false` on the first pair where the faster
EMA is not strictly above the slower one. -/
def stacked_long_chain : List ℚ → Bool
  | a :: b :: rest => if a ≤ b then false else stacked_long_chain (b :: rest)
  | _ => true

/-- The inner loop of `are_emas_stacked` for direction `"short"`: walks
consecutive pairs and returns `false` on the first pair where the faster
EMA is not strictly below the slower one. -/
def stacked_short_chain : List ℚ → Bool
  | a :: b :: rest => if b ≤ a then false else stacked_short_chain (b :: rest)
  | _ => true

/-- `indicators.are_emas_stacked(df, direction, index)`: looks up the row
at `index` (Python semantics, `false` on `IndexError`), reads the
`ema_p` column for each configured fast period, and checks the strict
chain in the requested direction; any other direction returns `false`. -/
def are_emas_stacked (periods : List Nat) (df : List Row) (direction : String)
    (index : Int) : Bool :=
  match pyGet df index with
  | none => false
  | some row =>
    let ema_values := periods.map row.ema
    if direction = "long" then stacked_long_chain ema_values
    else if direction = "short" then stacked_short_chain ema_values
    else false

/-- `indicators.get_200ema_bias(df, index)`: `"long"` when the close is
strictly above the trend EMA, `"short"` when strictly below, otherwise
`"neutral"`; an out-of-range index yields `"neutral"`. -/
def get_200ema_bias (trendPeriod : Nat) (df : List Row) (index : Int) : String :=
  match pyGet df index with
  | none => "neutral"
  | some row =>
    if row.ema trendPeriod < row.close then "long"
    else if row.close < row.ema trendPeriod then "short"
    else "neutral"

/-- `indicators.is_doji(candle, threshold)`: a zero-range candle is never
a doji; otherwise the candle is a doji iff the body is at most
`threshold` of the high-low range. -/
def is_doji (threshold : ℚ) (candle : Row) : Bool :=
  let body := |candle.close - candle.open_|
  let total_range := candle.high - candle.low
  if total_range = 0 then false
  else decide (body / total_range ≤ threshold)

/-- The recursive tail of pandas `ewm(span, adjust=False).mean()`:
`EMA[i] = α·close[i] + (1-α)·EMA[i-1]`. -/
def ewm_go (α : ℚ) (prev : ℚ) : List ℚ → List ℚ
  | [] => []
  | c :: cs =>
    let e := α * c + (1 - α) * prev
    e :: ewm_go α e cs

/-- Pandas `ewm(span, adjust=False).mean()` over a close series:
`EMA[0] = close[0]`, then the recursive update. -/
def ewm_mean (α : ℚ) : List ℚ → List ℚ
  | [] => []
  | c :: cs => c :: ewm_go α c cs

/-- Store the value `v` in the `ema_p` column of a row. -/
def set_ema (p : Nat) (v : ℚ) (r : Row) : Row :=
  { r with ema := fun q => if q = p then v else r.ema q }

/-- `indicators.calculate_emas(df, periods)`: for each period `p`, writes
the column `ema_p` with the exponential moving average of the closes,
smoothing factor `α = 2/(p+1)`. -/
def calculate_emas (periods : List Nat) (df : List Row) : List Row :=
  periods.foldl
    (fun acc p =>
      List.zipWith (set_ema p) (ewm_mean (2 / ((p : ℚ) + 1)) (acc.map Row.close)) acc)
    df

/-- `fvg_detector.FVG`: a detected fair value gap. -/
structure FVG where
  direction : String
  top : ℚ
  bottom : ℚ
  midpoint : ℚ
  candle1_idx : Nat
  candle2_idx : Nat
  candle3_idx : Nat
  candle1_time : Int
  fvg_candle_low : ℚ
  fvg_candle_high : ℚ
deriving DecidableEq

/-- Body of one iteration of the `find_fvgs` scan: given the three
consecutive candles starting at index `i`, the produced gaps (zero or
one; bullish takes precedence via `elif`), after the optional
formation-window filter on the middle candle's timestamp. -/
def fvg_at (fw : Int → Bool) (check_time : Bool) (i : Nat)
    (candle1 candle2 candle3 : Row) : List FVG :=
  if check_time ∧ ¬ fw candle2.time then []
  else if candle1.high < candle3.low then
    [{ direction := "bullish"
       top := candle3.low
       bottom := candle1.high
       midpoint := (candle3.low + candle1.high) / 2
       candle1_idx := i
       candle2_idx := i + 1
       candle3_idx := i + 2
       candle1_time := candle1.time
       fvg_candle_low := candle2.low
       fvg_candle_high := candle2.high }]
  else if candle3.high < candle1.low then
    [{ direction := "bearish"
       top := candle1.low
       bottom := candle3.high
       midpoint := (candle1.low + candle3.high) / 2
       candle1_idx := i
       candle2_idx := i + 1
       candle3_idx := i + 2
       candle1_time := candle1.time
       fvg_candle_low := candle2.low
       fvg_candle_high := candle2.high }]
  else []

/-- The scan loop of `find_fvgs`: slides a three-candle window across the
remaining rows, `i` being the global index of the first of the three. -/
def find_fvgs_go (fw : Int → Bool) (check_time : Bool) : Nat → List Row → List FVG
  | i, c1 :: c2 :: c3 :: rest =>
    fvg_at fw check_time i c1 c2 c3 ++ find_fvgs_go fw check_time (i + 1) (c2 :: c3 :: rest)
  | _, _ => []

/-- `fvg_detector.find_fvgs(df, check_time)`: all fair value gaps of the
sequence, in ascending order of formation index. -/
def find_fvgs (fw : Int → Bool) (check_time : Bool) (df : List Row) : List FVG :=
  if df.length < 3 then [] else find_fvgs_go fw check_time 0 df

/-- `trident_pattern.TradeSignal`: a validated Trident Pattern signal. -/
structure TradeSignal where
  symbol : String
  direction : String
  entry_price : ℚ
  stop_loss : ℚ
  fvg : FVG
  doji_idx : Nat
  confirmation_idx : Nat
  signal_time : Int
  use_hard_sl : Bool
deriving DecidableEq

/-- The recurring test `symbol.upper() in ["XAUUSD", "GOLD"]`. -/
def isGoldSymbol (symbol : String) : Bool :=
  symbol.toUpper = "XAUUSD" ∨ symbol.toUpper = "GOLD"

/-- The long-side confirmation check of `validate_trident_pattern`,
including the vestigial first block: the source first tests
`close >= doji.high` with a `pass` body (control continues identically on
both branches), then rejects when `close > doji.high`. -/
def confirmationCheckLong (doji_candle confirm_candle : Row) : Bool :=
  if doji_candle.high ≤ confirm_candle.close then
    (if doji_candle.high < confirm_candle.close then false else true)
  else
    (if doji_candle.high < confirm_candle.close then false else true)

/-- The short-side confirmation check of `validate_trident_pattern`:
rejects when the confirmation close is strictly below the doji's low. -/
def confirmationCheckShort (doji_candle confirm_candle : Row) : Bool :=
  if confirm_candle.close < doji_candle.low then false else true

/-- One iteration of the gap loop in `validate_trident_pattern`: runs the
doji, wick-depth, confirmation, EMA-stacking, 200-EMA-bias and kill-zone
checks for a single candidate gap and either emits the signal or rejects
the candidate (`none`). -/
def tryGap (cfg : Config) (kz : Int → Bool) (df : List Row) (symbol : String)
    (check_time : Bool) (fvg : FVG) : Option TradeSignal :=
  let doji_idx := fvg.candle3_idx + 1
  let confirm_idx := fvg.candle3_idx + 2
  if df.length ≤ confirm_idx then none
  else
  let doji_candle := (df.get? doji_idx).getD default
  let confirm_candle := (df.get? confirm_idx).getD default
  if ¬ is_doji cfg.DOJI_BODY_RATIO doji_candle then none
  else if fvg.direction = "bullish" then
    if fvg.midpoint < doji_candle.low then none
    else if ¬ confirmationCheckLong doji_candle confirm_candle then none
    else if ¬ are_emas_stacked cfg.EMA_FAST_PERIODS df "long" confirm_idx then none
    else if get_200ema_bias cfg.EMA_TREND_PERIOD df confirm_idx ≠ "long" then none
    else if check_time ∧ ¬ kz confirm_candle.time then none
    else
      some { symbol := symbol
             direction := "BUY"
             entry_price := confirm_candle.close
             stop_loss := fvg.fvg_candle_low
             fvg := fvg
             doji_idx := doji_idx
             confirmation_idx := confirm_idx
             signal_time := confirm_candle.time
             use_hard_sl := !isGoldSymbol symbol || cfg.GOLD_USE_HARD_SL }
  else if fvg.direction = "bearish" then
    if doji_candle.high < fvg.midpoint then none
    else if ¬ confirmationCheckShort doji_candle confirm_candle then none
    else if ¬ are_emas_stacked cfg.EMA_FAST_PERIODS df "short" confirm_idx then none
    else if get_200ema_bias cfg.EMA_TREND_PERIOD df confirm_idx ≠ "short" then none
    else if check_time ∧ ¬ kz confirm_candle.time then none
    else
      some { symbol := symbol
             direction := "SELL"
             entry_price := confirm_candle.close
             stop_loss := fvg.fvg_candle_high
             fvg := fvg
             doji_idx := doji_idx
             confirmation_idx := confirm_idx
             signal_time := confirm_candle.time
             use_hard_sl := !isGoldSymbol symbol || cfg.GOLD_USE_HARD_SL }
  else none

/-- The gap loop of `validate_trident_pattern`: tries each candidate in
the given order and returns the first accepted signal. -/
def validate_go (cfg : Config) (kz : Int → Bool) (df : List Row) (symbol : String)
    (check_time : Bool) : List FVG → Option TradeSignal
  | [] => none
  | fvg :: rest =>
    match tryGap cfg kz df symbol check_time fvg with
    | some s => some s
    | none => validate_go cfg kz df symbol check_time rest

/-- `trident_pattern.validate_trident_pattern(df, symbol, check_time)`:
requires at least six candles, finds all gaps, and scans them most
recent first, returning the first accepted Trident Pattern signal. -/
def validate_trident_pattern (cfg : Config) (kz fw : Int → Bool) (df : List Row)
    (symbol : String) (check_time : Bool) : Option TradeSignal :=
  if df.length < 6 then none
  else
    let fvgs := find_fvgs fw check_time df
    if fvgs = [] then none
    else validate_go cfg kz df symbol check_time fvgs.reverse

/-- `backtest.BacktestTrade`: record of a simulated trade. -/
structure BacktestTrade where
  symbol : String
  direction : String
  entry_price : ℚ
  entry_time : Int
  stop_loss : ℚ
  exit_price : ℚ
  exit_time : Option Int
  pnl_pips : ℚ
  rr_ratio : ℚ
  result : String
  exit_reason : String
deriving DecidableEq

/-- The per-bar stop-loss section of `simulate_trade_exit`: hard stop for
non-gold instruments (exit at the stop price), candle-close filter for
gold (exit at the close); `none` when no stop exit fires on this bar. -/
def sl_check (is_gold : Bool) (pip_value : ℚ) (trade : BacktestTrade)
    (candle : Row) : Option BacktestTrade :=
  if trade.direction = "BUY" then
    if ¬ is_gold then
      if candle.low ≤ trade.stop_loss then
        some { trade with
               exit_price := trade.stop_loss
               exit_time := some candle.time
               pnl_pips := (trade.stop_loss - trade.entry_price) / pip_value
               result := "LOSS"
               exit_reason := "Stop loss hit" }
      else none
    else
      if candle.close ≤ trade.stop_loss then
        some { trade with
               exit_price := candle.close
               exit_time := some candle.time
               pnl_pips := (candle.close - trade.entry_price) / pip_value
               result := "LOSS"
               exit_reason := "Gold candle close filter" }
      else none
  else if trade.direction = "SELL" then
    if ¬ is_gold then
      if trade.stop_loss ≤ candle.high then
        some { trade with
               exit_price := trade.stop_loss
               exit_time := some candle.time
               pnl_pips := (trade.entry_price - trade.stop_loss) / pip_value
               result := "LOSS"
               exit_reason := "Stop loss hit" }
      else none
    else
      if trade.stop_loss ≤ candle.close then
        some { trade with
               exit_price := candle.close
               exit_time := some candle.time
               pnl_pips := (trade.entry_price - candle.close) / pip_value
               result := "LOSS"
               exit_reason := "Gold candle close filter" }
      else none
  else none

/-- The daily-granularity exit section of `simulate_trade_exit`: restrict
the daily series to bars dated up to the current 30M candle, recompute
the fast EMAs on that subset, and exit at the current candle's close when
stacking in the trade direction held on the previous daily bar but no
longer holds on the last one. -/
def daily_exit_check (dateOf : Int → Int) (cfg : Config) (df_daily : List Row)
    (pip_value : ℚ) (trade : BacktestTrade) (candle : Row) : Option BacktestTrade :=
  let daily_up_to := df_daily.filter (fun r => dateOf r.time ≤ dateOf candle.time)
  if 5 ≤ daily_up_to.length then
    let daily_subset := calculate_emas cfg.EMA_FAST_PERIODS daily_up_to
    if trade.direction = "BUY" then
      if ¬ are_emas_stacked cfg.EMA_FAST_PERIODS daily_subset "long" (-1) then
        if are_emas_stacked cfg.EMA_FAST_PERIODS daily_subset "long" (-2) then
          let pnl := (candle.close - trade.entry_price) / pip_value
          some { trade with
                 exit_price := candle.close
                 exit_time := some candle.time
                 pnl_pips := pnl
                 result := if 0 < pnl then "WIN" else "LOSS"
                 exit_reason := "Daily EMA unstack" }
        else none
      else none
    else if trade.direction = "SELL" then
      if ¬ are_emas_stacked cfg.EMA_FAST_PERIODS daily_subset "short" (-1) then
        if are_emas_stacked cfg.EMA_FAST_PERIODS daily_subset "short" (-2) then
          let pnl := (trade.entry_price - candle.close) / pip_value
          some { trade with
                 exit_price := candle.close
                 exit_time := some candle.time
                 pnl_pips := pnl
                 result := if 0 < pnl then "WIN" else "LOSS"
                 exit_reason := "Daily EMA unstack" }
        else none
      else none
    else none
  else none

/-- One iteration of the forward scan in `simulate_trade_exit` at bar
index `i`: first the stop-loss checks, then — every 48 bars past the
entry, when daily data is present — the daily exit check. -/
def sim_step (dateOf : Int → Int) (cfg : Config) (df_30m df_daily : List Row)
    (is_gold : Bool) (pip_value : ℚ) (entry_bar_idx : Nat) (trade : BacktestTrade)
    (i : Nat) : Option BacktestTrade :=
  let candle := (df_30m.get? i).getD default
  match sl_check is_gold pip_value trade candle with
  | some t => some t
  | none =>
    if (i - entry_bar_idx) % 48 = 0 ∧ df_daily.isEmpty = false then
      daily_exit_check dateOf cfg df_daily pip_value trade candle
    else none

/-- The `for i in range(entry+1, max_bars)` loop of
`simulate_trade_exit`: returns the first early exit, `none` when the loop
runs to completion. -/
def scanExits (step : Nat → Option BacktestTrade) : List Nat → Option BacktestTrade
  | [] => none
  | i :: rest =>
    match step i with
    | some t => some t
    | none => scanExits step rest

/-- The max-hold tail of `simulate_trade_exit`: force-close at the last
scanned candle's close (the last candle of the data when the horizon
exceeds it), outcome decided by the sign of the P&L. -/
def final_close (df_30m : List Row) (max_bars : Nat) (pip_value : ℚ)
    (trade : BacktestTrade) : BacktestTrade :=
  let last_candle :=
    if max_bars < df_30m.length then (df_30m.get? (max_bars - 1)).getD default
    else (df_30m.get? (df_30m.length - 1)).getD default
  let pnl :=
    if trade.direction = "BUY" then (last_candle.close - trade.entry_price) / pip_value
    else (trade.entry_price - last_candle.close) / pip_value
  { trade with
    exit_price := last_candle.close
    exit_time := some last_candle.time
    pnl_pips := pnl
    result := if 0 < pnl then "WIN" else "LOSS"
    exit_reason := "Max hold period" }

/-- `backtest.simulate_trade_exit(df_30m, df_daily, trade, entry_bar_idx,
pip_value)`: scans forward from the bar after the entry up to the horizon
`min(len(df_30m), entry_bar_idx + 960)`, returning the first stop-loss or
daily-unstack exit, and otherwise force-closes at the end of the
horizon. -/
def simulate_trade_exit (dateOf : Int → Int) (cfg : Config)
    (df_30m df_daily : List Row) (trade : BacktestTrade) (entry_bar_idx : Nat)
    (pip_value : ℚ) : BacktestTrade :=
  let is_gold := isGoldSymbol trade.symbol
  let max_bars := min df_30m.length (entry_bar_idx + 960)
  let idxs := List.range' (entry_bar_idx + 1) (max_bars - (entry_bar_idx + 1))
  match scanExits (sim_step dateOf cfg df_30m df_daily is_gold pip_value entry_bar_idx trade) idxs with
  | some t => t
  | none => final_close df_30m max_bars pip_value trade

/-- The risk:reward computation of `backtest.backtest_symbol` applied to
one completed trade: `rr = pnl_pips · pip / |entry − stop|`, and `0` when
the risk distance is zero. -/
def compute_rr (pip_value : ℚ) (trade : BacktestTrade) : BacktestTrade :=
  let risk := |trade.entry_price - trade.stop_loss|
  if 0 < risk then { trade with rr_ratio := trade.pnl_pips * pip_value / risk }
  else { trade with rr_ratio := 0 }

/-- The deduplication key used by the sliding-window scan of
`backtest_symbol`: (entry timestamp, entry price, direction). -/
def tradeKey (t : BacktestTrade) : Int × ℚ × String :=
  (t.entry_time, t.entry_price, t.direction)

/-- The window start indices of the sliding scan:
`range(0, len(df_30m) - window_size, window_size // 2)` with window size
50 and step 25. -/
def scanStarts (n : Nat) : List Nat :=
  (List.range ((n - 50 + 24) / 25)).map (· * 25)

/-- The body of the sliding-window scan loop of `backtest_symbol`,
threading the dedup set, the cool-down marker and the accumulated trade
list through the remaining window starts. -/
def backtest_scan_go (cfg : Config) (kz fw : Int → Bool) (dateOf : Int → Int)
    (symbol : String) (df_30m df_daily : List Row) (pip_value : ℚ) :
    List Nat → List (Int × ℚ × String) → Int → List BacktestTrade → List BacktestTrade
  | [], _, _, trades => trades
  | start_idx :: rest, seen, last_trade_idx, trades =>
    if (start_idx : Int) - last_trade_idx < 10 then
      backtest_scan_go cfg kz fw dateOf symbol df_30m df_daily pip_value rest seen
        last_trade_idx trades
    else
      let window := (df_30m.drop start_idx).take 50
      match validate_trident_pattern cfg kz fw window symbol true with
      | none =>
        backtest_scan_go cfg kz fw dateOf symbol df_30m df_daily pip_value rest seen
          last_trade_idx trades
      | some signal =>
        let entry_key := (signal.signal_time, signal.entry_price, signal.direction)
        if entry_key ∈ seen then
          backtest_scan_go cfg kz fw dateOf symbol df_30m df_daily pip_value rest seen
            last_trade_idx trades
        else
          let actual_confirm_idx := start_idx + signal.confirmation_idx
          let trade0 : BacktestTrade :=
            { symbol := symbol
              direction := signal.direction
              entry_price := signal.entry_price
              entry_time := signal.signal_time
              stop_loss := signal.stop_loss
              exit_price := 0
              exit_time := none
              pnl_pips := 0
              rr_ratio := 0
              result := "OPEN"
              exit_reason := "" }
          let trade1 :=
            simulate_trade_exit dateOf cfg df_30m df_daily trade0 actual_confirm_idx
              pip_value
          let trade2 := compute_rr pip_value trade1
          backtest_scan_go cfg kz fw dateOf symbol df_30m df_daily pip_value rest
            (entry_key :: seen) (start_idx : Int) (trades ++ [trade2])

/-- The sliding-window scan of `backtest.backtest_symbol` over fetched and
indicator-enriched data: windows of 50 bars stepping by 25, per-window
pattern validation, deduplication by (entry time, entry price,
direction), cool-down, forward simulation and risk:reward computation;
returns the recorded trade list. -/
def backtest_symbol_scan (cfg : Config) (kz fw : Int → Bool) (dateOf : Int → Int)
    (symbol : String) (df_30m df_daily : List Row) (pip_value : ℚ) :
    List BacktestTrade :=
  backtest_scan_go cfg kz fw dateOf symbol df_30m df_daily pip_value
    (scanStarts df_30m.length) [] (-(50 : Int)) []

/-- A concrete configuration used by the concrete evaluations: fast
periods 5, 9, 13, 21, trend period 200, doji threshold 0.3, hard stop
enabled for gold. -/
def exCfg : Config :=
  { EMA_FAST_PERIODS := [5, 9, 13, 21]
    EMA_TREND_PERIOD := 200
    DOJI_BODY_RATIO := 3 / 10
    GOLD_USE_HARD_SL := true }

/-- Constant-zero indicator columns, for rows whose EMA values are never
read. -/
def zeroEma : Nat → ℚ := fun _ => 0

/-- A six-candle sequence containing a bullish fair value gap (candles
0–2) whose impulse candle trades far above the gap, followed by a doji
(candle 3) and a confirmation candle (candle 4); the indicator columns at
the confirmation candle are stacked for a long. -/
def c1Df : List Row :=
  [ { open_ := 19/2, high := 10, low := 9, close := 19/2, time := 0, ema := zeroEma }
  , { open_ := 50, high := 51, low := 50, close := 101/2, time := 1, ema := zeroEma }
  , { open_ := 53/5, high := 54/5, low := 21/2, close := 53/5, time := 2, ema := zeroEma }
  , { open_ := 51/5, high := 52/5, low := 101/10, close := 1021/100, time := 3, ema := zeroEma }
  , { open_ := 41/4, high := 207/20, low := 51/5, close := 103/10, time := 4
      ema := fun p => 30 - (p : ℚ) }
  , { open_ := 103/10, high := 52/5, low := 51/5, close := 103/10, time := 5, ema := zeroEma } ]

/-- The signal the validator accepts on `c1Df`: a BUY entered at 10.3
whose stop-loss, the impulse candle's low, is 50 — above the entry. -/
def c1Signal : TradeSignal :=
  { symbol := "EURUSD"
    direction := "BUY"
    entry_price := 103/10
    stop_loss := 50
    fvg :=
      { direction := "bullish"
        top := 21/2
        bottom := 10
        midpoint := 41/4
        candle1_idx := 0
        candle2_idx := 1
        candle3_idx := 2
        candle1_time := 0
        fvg_candle_low := 50
        fvg_candle_high := 51 }
    doji_idx := 3
    confirmation_idx := 4
    signal_time := 4
    use_hard_sl := true }

/-- A two-candle 30M series whose second candle trades down through the
stop of a long opened at the first candle. -/
def c2Df : List Row :=
  [ { open_ := 10, high := 10, low := 10, close := 10, time := 0, ema := zeroEma }
  , { open_ := 9, high := 19/2, low := 17/2, close := 9, time := 1, ema := zeroEma } ]

/-- A long trade at entry 10 with stop 9, opened at bar 0 of `c2Df`. -/
def c2Trade : BacktestTrade :=
  { symbol := "EURUSD"
    direction := "BUY"
    entry_price := 10
    entry_time := 0
    stop_loss := 9
    exit_price := 0
    exit_time := none
    pnl_pips := 0
    rr_ratio := 0
    result := "OPEN"
    exit_reason := "" }

/-- The spec's worked P&L scenario as data: a long entered at 1.1000 with
stop 1.0950; the next (last) candle never touches the stop and closes at
1.1100, so the trade force-closes there. -/
def c5Df : List Row :=
  [ { open_ := 11/10, high := 11/10, low := 11/10, close := 11/10, time := 0, ema := zeroEma }
  , { open_ := 11/10, high := 111/100, low := 137/125, close := 111/100, time := 1
      ema := zeroEma } ]

/-- The trade of the spec's worked P&L scenario: long, entry 1.1000, stop
1.0950. -/
def c5Trade : BacktestTrade :=
  { symbol := "EURUSD"
    direction := "BUY"
    entry_price := 11/10
    entry_time := 0
    stop_loss := 219/200
    exit_price := 0
    exit_time := none
    pnl_pips := 0
    rr_ratio := 0
    result := "OPEN"
    exit_reason := "" }

/-- The spec's gap scenario as data: first candle's high 10.0, third
candle's low 10.5. -/
def c7Df : List Row :=
  [ { open_ := 10, high := 10, low := 19/2, close := 10, time := 0, ema := zeroEma }
  , { open_ := 10, high := 21/2, low := 10, close := 21/2, time := 1, ema := zeroEma }
  , { open_ := 21/2, high := 53/5, low := 21/2, close := 21/2, time := 2, ema := zeroEma } ]

/-- The up gap detected on `c7Df`: bottom 10.0, top 10.5, midpoint
10.25. -/
def c7Gap : FVG :=
  { direction := "bullish"
    top := 21/2
    bottom := 10
    midpoint := 41/4
    candle1_idx := 0
    candle2_idx := 1
    candle3_idx := 2
    candle1_time := 0
    fvg_candle_low := 10
    fvg_candle_high := 21/2 }

/-- The spec's doji scenario as data: open 100.00, close 100.02, high
100.10, low 99.95. -/
def c8Candle : Row :=
  { open_ := 100, high := 1001/10, low := 1999/20, close := 5001/50, time := 0
    ema := zeroEma }

/-- The data of a completed simulation relative to the input trade: the
non-exit fields are unchanged, the outcome is WIN or LOSS, and the
recorded P&L matches the exit and entry prices in the trade's
direction. -/
def ExitShape (t t0 : BacktestTrade) (pip_value : ℚ) : Prop :=
  t.symbol = t0.symbol ∧ t.direction = t0.direction ∧
  t.entry_price = t0.entry_price ∧ t.entry_time = t0.entry_time ∧
  t.stop_loss = t0.stop_loss ∧ t.rr_ratio = t0.rr_ratio ∧
  (t.result = "WIN" ∨ t.result = "LOSS") ∧
  (t0.direction = "BUY" → t.pnl_pips = (t.exit_price - t0.entry_price) / pip_value) ∧
  (t0.direction = "SELL" → t.pnl_pips = (t0.entry_price - t.exit_price) / pip_value)

/-! Helper lemmas. -/

/-- An either-way conditional between the two outcome strings. -/
theorem ite_win_loss (c : Prop) [Decidable c] :
    (if c then "WIN" else "LOSS") = "WIN" ∨ (if c then "WIN" else "LOSS") = "LOSS" := by
  split
  · exact Or.inl rfl
  · exact Or.inr rfl

/-- An early stop-loss exit has the completed-trade shape. -/
theorem sl_check_shape (is_gold : Bool) (pip_value : ℚ) (t0 : BacktestTrade)
    (c : Row) (t' : BacktestTrade) (h : sl_check is_gold pip_value t0 c = some t') :
    ExitShape t' t0 pip_value := by
  unfold sl_check at h
  unfold ExitShape
  split_ifs at h <;>
    first
      | exact Option.noConfusion h
      | (injection h with h; subst h; simp_all)

/-- An early daily-unstack exit has the completed-trade shape. -/
theorem daily_exit_check_shape (dateOf : Int → Int) (cfg : Config)
    (df_daily : List Row) (pip_value : ℚ) (t0 : BacktestTrade) (c : Row)
    (t' : BacktestTrade)
    (h : daily_exit_check dateOf cfg df_daily pip_value t0 c = some t') :
    ExitShape t' t0 pip_value := by
  unfold daily_exit_check at h
  unfold ExitShape
  dsimp only at h
  split_ifs at h <;>
    first
      | exact Option.noConfusion h
      | (injection h with h; subst h; simp_all)

/-- Any early exit produced by one step of the forward scan has the
completed-trade shape. -/
theorem sim_step_shape (dateOf : Int → Int) (cfg : Config) (df_30m df_daily : List Row)
    (is_gold : Bool) (pip_value : ℚ) (entry_bar_idx : Nat) (t0 : BacktestTrade)
    (i : Nat) (t' : BacktestTrade)
    (h : sim_step dateOf cfg df_30m df_daily is_gold pip_value entry_bar_idx t0 i = some t') :
    ExitShape t' t0 pip_value := by
  unfold sim_step at h
  dsimp only at h
  cases hsl : sl_check is_gold pip_value t0 ((df_30m.get? i).getD default) with
  | some t2 =>
    rw [hsl] at h
    injection h with h
    subst h
    exact sl_check_shape _ _ _ _ _ hsl
  | none =>
    rw [hsl] at h
    split_ifs at h
    exact daily_exit_check_shape _ _ _ _ _ _ _ h

/-- The forced close at the end of the horizon has the completed-trade
shape. -/
theorem final_close_shape (df_30m : List Row) (max_bars : Nat) (pip_value : ℚ)
    (t0 : BacktestTrade) : ExitShape (final_close df_30m max_bars pip_value t0) t0 pip_value := by
  unfold final_close ExitShape
  refine ⟨rfl, rfl, rfl, rfl, rfl, rfl, ite_win_loss _, ?_, ?_⟩ <;>
    intro hd <;> simp [hd]

/-- An early exit returned by the scan loop comes from one step. -/
theorem scanExits_some (step : Nat → Option BacktestTrade) :
    ∀ (l : List Nat) (t' : BacktestTrade), scanExits step l = some t' →
      ∃ i ∈ l, step i = some t' := by
  intro l
  induction l with
  | nil => intro t' h; exact Option.noConfusion h
  | cons i rest ih =>
    intro t' h
    unfold scanExits at h
    cases hstep : step i with
    | some t2 =>
      rw [hstep] at h
      exact ⟨i, List.mem_cons_self i rest, by rw [hstep]; exact h⟩
    | none =>
      rw [hstep] at h
      obtain ⟨j, hj, hjs⟩ := ih t' h
      exact ⟨j, List.mem_cons_of_mem i hj, hjs⟩

/-- However the forward simulation exits, the returned trade has the
completed-trade shape relative to the input trade. -/
theorem simulate_trade_exit_shape (dateOf : Int → Int) (cfg : Config)
    (df_30m df_daily : List Row) (t0 : BacktestTrade) (entry_bar_idx : Nat)
    (pip_value : ℚ) :
    ExitShape (simulate_trade_exit dateOf cfg df_30m df_daily t0 entry_bar_idx pip_value)
      t0 pip_value := by
  unfold simulate_trade_exit
  dsimp only
  cases hscan : scanExits
      (sim_step dateOf cfg df_30m df_daily (isGoldSymbol t0.symbol) pip_value
        entry_bar_idx t0)
      (List.range' (entry_bar_idx + 1)
        (min df_30m.length (entry_bar_idx + 960) - (entry_bar_idx + 1))) with
  | some t' =>
    obtain ⟨i, _, hstep⟩ := scanExits_some _ _ _ hscan
    exact sim_step_shape _ _ _ _ _ _ _ _ _ _ hstep
  | none =>
    exact final_close_shape _ _ _ _

/-- Scanning with pointwise-equal step functions gives the same exit. -/
theorem scanExits_congr (f g : Nat → Option BacktestTrade) :
    ∀ l : List Nat, (∀ i ∈ l, f i = g i) → scanExits f l = scanExits g l := by
  intro l
  induction l with
  | nil => intro _; rfl
  | cons i rest ih =>
    intro hfg
    unfold scanExits
    rw [hfg i (List.mem_cons_self i rest),
      ih fun j hj => hfg j (List.mem_cons_of_mem i hj)]

/-- A scan step below the truncation point does not see the truncation. -/
theorem sim_step_take (dateOf : Int → Int) (cfg : Config) (df_30m df_daily : List Row)
    (is_gold : Bool) (pip_value : ℚ) (entry_bar_idx : Nat) (t0 : BacktestTrade)
    (n i : Nat) (hi : i < n) :
    sim_step dateOf cfg (df_30m.take n) df_daily is_gold pip_value entry_bar_idx t0 i =
      sim_step dateOf cfg df_30m df_daily is_gold pip_value entry_bar_idx t0 i := by
  unfold sim_step
  rw [List.get?_take hi]

/-- The forced close below the truncation point does not see the
truncation. -/
theorem final_close_take (df_30m : List Row) (n : Nat) (pip_value : ℚ)
    (t0 : BacktestTrade) (h : n < df_30m.length) (hn : 0 < n) :
    final_close (df_30m.take n) n pip_value t0 = final_close df_30m n pip_value t0 := by
  unfold final_close
  dsimp only
  rw [List.length_take]
  have hmin : min n df_30m.length = n := by omega
  rw [hmin, if_neg (by omega), if_pos h, List.get?_take (by omega : n - 1 < n)]

/-- The forward simulation depends only on the 30M bars up to the
horizon: truncating the series at `entry_bar_idx + 960` bars gives the
same completed trade. -/
theorem simulate_horizon (dateOf : Int → Int) (cfg : Config)
    (df_30m df_daily : List Row) (t0 : BacktestTrade) (entry_bar_idx : Nat)
    (pip_value : ℚ) :
    simulate_trade_exit dateOf cfg (df_30m.take (entry_bar_idx + 960)) df_daily t0
        entry_bar_idx pip_value =
      simulate_trade_exit dateOf cfg df_30m df_daily t0 entry_bar_idx pip_value := by
  by_cases hcase : df_30m.length ≤ entry_bar_idx + 960
  · rw [List.take_all_of_le hcase]
  · unfold simulate_trade_exit
    dsimp only
    rw [List.length_take]
    have h1 : min (entry_bar_idx + 960) df_30m.length ⊓ (entry_bar_idx + 960) =
        entry_bar_idx + 960 := by omega
    have h2 : df_30m.length ⊓ (entry_bar_idx + 960) = entry_bar_idx + 960 := by omega
    rw [h1, h2]
    rw [scanExits_congr _
      (sim_step dateOf cfg df_30m df_daily (isGoldSymbol t0.symbol) pip_value
        entry_bar_idx t0)
      _
      (fun i hi => sim_step_take dateOf cfg df_30m df_daily _ pip_value entry_bar_idx t0
        _ i (by
          have := List.mem_range'_1.mp hi
          omega))]
    rw [final_close_take df_30m (entry_bar_idx + 960) pip_value t0 (by omega) (by omega)]

/-- A long-stacked chain has its first element strictly above its second. -/
theorem stacked_long_chain_two (a b : ℚ) (l : List ℚ)
    (h : stacked_long_chain (a :: b :: l) = true) : b < a := by
  by_cases hab : a ≤ b
  · simp only [stacked_long_chain, if_pos hab] at h
    exact Bool.noConfusion h
  · exact not_le.mp hab

/-- A short-stacked chain has its first element strictly below its second. -/
theorem stacked_short_chain_two (a b : ℚ) (l : List ℚ)
    (h : stacked_short_chain (a :: b :: l) = true) : a < b := by
  by_cases hab : b ≤ a
  · simp only [stacked_short_chain, if_pos hab] at h
    exact Bool.noConfusion h
  · exact not_le.mp hab

/-- Geometry of a gap produced by a single step of the detector scan. -/
theorem fvg_at_geometry {fw : Int → Bool} {ct : Bool} {i : Nat} {c1 c2 c3 : Row}
    {g : FVG} (hg : g ∈ fvg_at fw ct i c1 c2 c3) :
    g.bottom < g.top ∧ g.midpoint = (g.top + g.bottom) / 2 := by
  unfold fvg_at at hg
  split at hg
  · simp at hg
  · split at hg
    · simp only [List.mem_singleton] at hg
      subst hg
      exact ⟨by assumption, rfl⟩
    · split at hg
      · simp only [List.mem_singleton] at hg
        subst hg
        exact ⟨by assumption, rfl⟩
      · simp at hg

/-- Geometry of every gap produced by the detector's scan loop. -/
theorem find_fvgs_go_geometry (fw : Int → Bool) (ct : Bool) :
    ∀ (l : List Row) (i : Nat) (g : FVG), g ∈ find_fvgs_go fw ct i l →
      g.bottom < g.top ∧ g.midpoint = (g.top + g.bottom) / 2 := by
  intro l
  induction l with
  | nil => intro i g hg; simp [find_fvgs_go] at hg
  | cons c1 tl ih =>
    intro i g hg
    cases tl with
    | nil => simp [find_fvgs_go] at hg
    | cons c2 tl2 =>
      cases tl2 with
      | nil => simp [find_fvgs_go] at hg
      | cons c3 rest =>
        simp only [find_fvgs_go, List.mem_append] at hg
        rcases hg with hg | hg
        · exact fvg_at_geometry hg
        · exact ih (i + 1) g hg

set_option maxHeartbeats 1000000 in
/-- An accepted candidate yields a BUY signal anchored at the impulse
candle's low, or a SELL signal anchored at the impulse candle's high. -/
theorem tryGap_some (cfg : Config) (kz : Int → Bool) (df : List Row) (symbol : String)
    (check_time : Bool) (fvg : FVG) (s : TradeSignal)
    (h : tryGap cfg kz df symbol check_time fvg = some s) :
    (s.direction = "BUY" ∧ s.stop_loss = fvg.fvg_candle_low ∧ s.fvg = fvg) ∨
    (s.direction = "SELL" ∧ s.stop_loss = fvg.fvg_candle_high ∧ s.fvg = fvg) := by
  unfold tryGap at h
  dsimp only at h
  split_ifs at h <;>
    first
      | exact Option.noConfusion h
      | (injection h with h; subst h; exact Or.inl ⟨rfl, rfl, rfl⟩)
      | (injection h with h; subst h; exact Or.inr ⟨rfl, rfl, rfl⟩)

/-- A signal returned by the gap loop comes from one candidate gap. -/
theorem validate_go_some (cfg : Config) (kz : Int → Bool) (df : List Row)
    (symbol : String) (check_time : Bool) :
    ∀ (l : List FVG) (s : TradeSignal),
      validate_go cfg kz df symbol check_time l = some s →
      ∃ fvg, tryGap cfg kz df symbol check_time fvg = some s := by
  intro l
  induction l with
  | nil => intro s h; exact Option.noConfusion h
  | cons fvg rest ih =>
    intro s h
    unfold validate_go at h
    cases hg : tryGap cfg kz df symbol check_time fvg with
    | some s2 => rw [hg] at h; exact ⟨fvg, by rw [hg]; exact h⟩
    | none => rw [hg] at h; exact ih s h

/-- A signal returned by the validator comes from one candidate gap. -/
theorem validate_some (cfg : Config) (kz fw : Int → Bool) (df : List Row)
    (symbol : String) (check_time : Bool) (s : TradeSignal)
    (h : validate_trident_pattern cfg kz fw df symbol check_time = some s) :
    ∃ fvg, tryGap cfg kz df symbol check_time fvg = some s := by
  unfold validate_trident_pattern at h
  dsimp only at h
  split_ifs at h
  exact validate_go_some cfg kz df symbol check_time _ s h

/-- The deduplication key survives the risk:reward computation. -/
theorem tradeKey_compute_rr (pip_value : ℚ) (t : BacktestTrade) :
    tradeKey (compute_rr pip_value t) = tradeKey t := by
  unfold compute_rr
  dsimp only
  split_ifs <;> rfl

/-- The deduplication key survives the forward simulation. -/
theorem tradeKey_simulate (dateOf : Int → Int) (cfg : Config)
    (df_30m df_daily : List Row) (t0 : BacktestTrade) (entry_bar_idx : Nat)
    (pip_value : ℚ) :
    tradeKey (simulate_trade_exit dateOf cfg df_30m df_daily t0 entry_bar_idx
      pip_value) = tradeKey t0 := by
  obtain ⟨-, hdir, hentry, htime, -, -, -, -, -⟩ :=
    simulate_trade_exit_shape dateOf cfg df_30m df_daily t0 entry_bar_idx pip_value
  unfold tradeKey
  rw [hdir, hentry, htime]

/-- The sliding-window scan preserves the dedup invariant: every
recorded trade's key is in the seen set, and the keys are pairwise
distinct. -/
theorem backtest_scan_go_distinct (cfg : Config) (kz fw : Int → Bool)
    (dateOf : Int → Int) (symbol : String) (df_30m df_daily : List Row)
    (pip_value : ℚ) :
    ∀ (starts : List Nat) (seen : List (Int × ℚ × String)) (last_trade_idx : Int)
      (trades : List BacktestTrade),
      (∀ t ∈ trades, tradeKey t ∈ seen) →
      trades.Pairwise (fun a b => tradeKey a ≠ tradeKey b) →
      (backtest_scan_go cfg kz fw dateOf symbol df_30m df_daily pip_value starts seen
        last_trade_idx trades).Pairwise (fun a b => tradeKey a ≠ tradeKey b) := by
  intro starts
  induction starts with
  | nil => intro seen last trades hseen hpw; exact hpw
  | cons start rest ih =>
    intro seen last trades hseen hpw
    unfold backtest_scan_go
    split
    · exact ih seen last trades hseen hpw
    · dsimp only
      cases hsig : validate_trident_pattern cfg kz fw ((df_30m.drop start).take 50)
          symbol true with
      | none => exact ih seen last trades hseen hpw
      | some signal =>
        dsimp only
        split
        · exact ih _ _ trades hseen hpw
        next hkey =>
          have hkey2 : ∀ t1 : BacktestTrade,
              tradeKey (compute_rr pip_value t1) = tradeKey t1 :=
            tradeKey_compute_rr pip_value
          apply ih
          · intro t ht
            rcases List.mem_append.mp ht with ht | ht
            · exact List.mem_cons_of_mem _ (hseen t ht)
            · rw [List.mem_singleton] at ht
              subst ht
              rw [tradeKey_compute_rr, tradeKey_simulate]
              exact List.mem_cons_self _ _
          · rw [List.pairwise_append]
            refine ⟨hpw, List.pairwise_singleton _ _, ?_⟩
            intro a ha b hb
            rw [List.mem_singleton] at hb
            subst hb
            rw [tradeKey_compute_rr, tradeKey_simulate]
            intro hcontra
            have h3 : tradeKey a = (signal.signal_time, signal.entry_price,
                signal.direction) := hcontra
            exact hkey (h3 ▸ hseen a ha)

/-! Claim theorems. -/

/-- C1 counterexample: the validator accepts a BUY signal on `c1Df`
whose stop-loss (50, the impulse candle's low) is above its entry price
(10.3): the stop-loss is not on the losing side of the entry. -/
theorem trident_stop_loss_side_counterexample :
    validate_trident_pattern exCfg (fun _ => true) (fun _ => true) c1Df "EURUSD" false =
      some c1Signal ∧
    c1Signal.direction = "BUY" ∧ c1Signal.entry_price < c1Signal.stop_loss := by
  refine ⟨?_, ?_, ?_⟩ <;> with_unfolding_all decide

/-- C1 amended: the validator anchors the stop-loss at the triggering
gap's impulse-candle low (BUY) or high (SELL); the stop-loss therefore
lies on the losing side of the entry exactly when that anchor does — the
validator itself never checks this ordering. -/
theorem trident_stop_loss_anchor (cfg : Config) (kz fw : Int → Bool) (df : List Row)
    (symbol : String) (check_time : Bool) (s : TradeSignal)
    (h : validate_trident_pattern cfg kz fw df symbol check_time = some s) :
    (s.direction = "BUY" → s.stop_loss = s.fvg.fvg_candle_low ∧
      (s.fvg.fvg_candle_low < s.entry_price → s.stop_loss < s.entry_price)) ∧
    (s.direction = "SELL" → s.stop_loss = s.fvg.fvg_candle_high ∧
      (s.entry_price < s.fvg.fvg_candle_high → s.entry_price < s.stop_loss)) := by
  obtain ⟨fvg, hg⟩ := validate_some cfg kz fw df symbol check_time s h
  rcases tryGap_some cfg kz df symbol check_time fvg s hg with
    ⟨hd, hsl, hfvg⟩ | ⟨hd, hsl, hfvg⟩
  · constructor
    · intro _
      rw [hfvg, hsl]
      exact ⟨rfl, fun hlt => hlt⟩
    · intro hd2
      rw [hd] at hd2
      exact absurd hd2 (by decide)
  · constructor
    · intro hd2
      rw [hd] at hd2
      exact absurd hd2 (by decide)
    · intro _
      rw [hfvg, hsl]
      exact ⟨rfl, fun hlt => hlt⟩

/-- C1 amended witness: the concrete accepted signal on `c1Df`. -/
theorem trident_stop_loss_anchor_witness :
    validate_trident_pattern exCfg (fun _ => true) (fun _ => true) c1Df "EURUSD" false =
      some c1Signal ∧
    ((c1Signal.direction = "BUY" →
        c1Signal.stop_loss = c1Signal.fvg.fvg_candle_low ∧
        (c1Signal.fvg.fvg_candle_low < c1Signal.entry_price →
          c1Signal.stop_loss < c1Signal.entry_price)) ∧
     (c1Signal.direction = "SELL" →
        c1Signal.stop_loss = c1Signal.fvg.fvg_candle_high ∧
        (c1Signal.entry_price < c1Signal.fvg.fvg_candle_high →
          c1Signal.entry_price < c1Signal.stop_loss))) :=
  ⟨by with_unfolding_all decide,
   trident_stop_loss_anchor exCfg (fun _ => true) (fun _ => true) c1Df "EURUSD" false
     c1Signal (by with_unfolding_all decide)⟩

/-- C6: in the trade list produced by one run of the backtest scan, no
two recorded trades share the deduplication key (entry timestamp, entry
price, direction); in particular one pattern occurrence detected in two
overlapping windows is recorded once, not twice. -/
theorem backtest_scan_dedup_keys (cfg : Config) (kz fw : Int → Bool)
    (dateOf : Int → Int) (symbol : String) (df_30m df_daily : List Row)
    (pip_value : ℚ) :
    (backtest_symbol_scan cfg kz fw dateOf symbol df_30m df_daily
      pip_value).Pairwise (fun a b => tradeKey a ≠ tradeKey b) := by
  unfold backtest_symbol_scan
  exact backtest_scan_go_distinct cfg kz fw dateOf symbol df_30m df_daily pip_value
    (scanStarts df_30m.length) [] (-(50 : Int)) []
    (fun t ht => absurd ht (List.not_mem_nil t)) List.Pairwise.nil

/-- C3: in the validator's confirmation check, a long candidate is
rejected iff the confirmation close is strictly greater than the doji's
high (equality with the doji high is accepted — the vestigial
`close >= high` block has no effect), and a short candidate is rejected
iff the confirmation close is strictly less than the doji's low. -/
theorem confirmation_check_effective_inequality (doji_candle confirm_candle : Row) :
    (confirmationCheckLong doji_candle confirm_candle = true ↔
      confirm_candle.close ≤ doji_candle.high) ∧
    (confirmationCheckLong doji_candle confirm_candle = false ↔
      doji_candle.high < confirm_candle.close) ∧
    (confirmationCheckShort doji_candle confirm_candle = true ↔
      doji_candle.low ≤ confirm_candle.close) ∧
    (confirmationCheckShort doji_candle confirm_candle = false ↔
      confirm_candle.close < doji_candle.low) := by
  unfold confirmationCheckLong confirmationCheckShort
  refine ⟨?_, ?_, ?_, ?_⟩ <;> split_ifs <;> simp_all

/-- C4: for the configured fast EMA periods, the stacking predicate is
never simultaneously true for direction long and direction short at the
same index of the same data. -/
theorem emas_stacked_directions_exclusive (df : List Row) (i : Int) :
    ¬ (are_emas_stacked EMA_FAST_PERIODS df "long" i = true ∧
       are_emas_stacked EMA_FAST_PERIODS df "short" i = true) := by
  rintro ⟨hl, hs⟩
  unfold are_emas_stacked at hl hs
  cases hrow : pyGet df i with
  | none => rw [hrow] at hl; exact Bool.noConfusion hl
  | some row =>
    rw [hrow] at hl hs
    simp only [EMA_FAST_PERIODS, List.map_cons, List.map_nil] at hl hs
    have hl' : stacked_long_chain
        [row.ema 5, row.ema 9, row.ema 13, row.ema 21] = true := by
      simpa using hl
    have hs' : stacked_short_chain
        [row.ema 5, row.ema 9, row.ema 13, row.ema 21] = true := by
      simpa using hs
    have h1 := stacked_long_chain_two _ _ _ hl'
    have h2 := stacked_short_chain_two _ _ _ hs'
    exact absurd h1 (not_lt.mpr h2.le)

/-- C9: the stacking predicate fails closed on any direction other than
the strings "long" and "short": it returns false rather than raising or
returning true. -/
theorem emas_stacked_invalid_direction (periods : List Nat) (df : List Row)
    (direction : String) (index : Int) (h1 : direction ≠ "long")
    (h2 : direction ≠ "short") :
    are_emas_stacked periods df direction index = false := by
  unfold are_emas_stacked
  cases pyGet df index with
  | none => rfl
  | some row => simp only [if_neg h1, if_neg h2]

/-- C9 witness: the concrete direction "sideways" on concrete data. -/
theorem emas_stacked_invalid_direction_witness :
    (("sideways" : String) ≠ "long" ∧ ("sideways" : String) ≠ "short") ∧
    are_emas_stacked EMA_FAST_PERIODS c2Df "sideways" 0 = false :=
  ⟨⟨by decide, by decide⟩,
   emas_stacked_invalid_direction EMA_FAST_PERIODS c2Df "sideways" 0
     (by decide) (by decide)⟩

/-- C8: for a candle with a well-ordered range, the doji test returns
false on a zero-range candle (the division is never performed), and
otherwise holds iff the body-to-range ratio is at most the threshold. -/
theorem is_doji_zero_range_safe (threshold : ℚ) (c : Row) (h : c.low ≤ c.high) :
    (c.high = c.low → is_doji threshold c = false) ∧
    (c.high ≠ c.low →
      (is_doji threshold c = true ↔
        |c.close - c.open_| / (c.high - c.low) ≤ threshold)) := by
  constructor
  · intro he
    unfold is_doji
    rw [if_pos (by rw [he, sub_self])]
  · intro hne
    unfold is_doji
    rw [if_neg (sub_ne_zero_of_ne hne)]
    exact decide_eq_true_iff

/-- C8 witness: the spec's doji scenario (open 100.00, close 100.02, high
100.10, low 99.95, threshold 0.3) is classified as a doji. -/
theorem is_doji_zero_range_safe_witness :
    c8Candle.low ≤ c8Candle.high ∧
    ((c8Candle.high = c8Candle.low → is_doji (3/10) c8Candle = false) ∧
     (c8Candle.high ≠ c8Candle.low →
       (is_doji (3/10) c8Candle = true ↔
         |c8Candle.close - c8Candle.open_| / (c8Candle.high - c8Candle.low) ≤ 3/10))) ∧
    is_doji (3/10) c8Candle = true :=
  ⟨by with_unfolding_all decide,
   is_doji_zero_range_safe (3/10) c8Candle (by with_unfolding_all decide),
   by with_unfolding_all decide⟩

/-- C7: every gap the detector returns has its top strictly above its
bottom and its midpoint equal to the arithmetic mean of the two, hence
strictly between them; this covers bullish and bearish gaps alike. -/
theorem find_fvgs_gap_geometry (fw : Int → Bool) (ct : Bool) (df : List Row)
    (g : FVG) (hg : g ∈ find_fvgs fw ct df) :
    g.bottom < g.top ∧ g.midpoint = (g.top + g.bottom) / 2 ∧
    g.bottom < g.midpoint ∧ g.midpoint < g.top := by
  unfold find_fvgs at hg
  split at hg
  · simp at hg
  · obtain ⟨h1, h2⟩ := find_fvgs_go_geometry fw ct df 0 g hg
    refine ⟨h1, h2, ?_, ?_⟩ <;> rw [h2] <;> linarith

/-- C2: on a non-empty 30M series and an in-range entry index, the
forward simulation resolves the trade to exactly WIN or LOSS (never
leaves it OPEN), and it only reads the 30M bars within the 960-bar
forward horizon: truncating the series there changes nothing. -/
theorem simulate_trade_exit_resolves (dateOf : Int → Int) (cfg : Config)
    (df_30m df_daily : List Row) (trade : BacktestTrade) (entry_bar_idx : Nat)
    (pip_value : ℚ) (h1 : 0 < df_30m.length) (h2 : entry_bar_idx < df_30m.length) :
    ((simulate_trade_exit dateOf cfg df_30m df_daily trade entry_bar_idx
        pip_value).result = "WIN" ∨
     (simulate_trade_exit dateOf cfg df_30m df_daily trade entry_bar_idx
        pip_value).result = "LOSS") ∧
    simulate_trade_exit dateOf cfg (df_30m.take (entry_bar_idx + 960)) df_daily trade
        entry_bar_idx pip_value =
      simulate_trade_exit dateOf cfg df_30m df_daily trade entry_bar_idx pip_value :=
  ⟨(simulate_trade_exit_shape dateOf cfg df_30m df_daily trade entry_bar_idx
      pip_value).2.2.2.2.2.2.1,
   simulate_horizon dateOf cfg df_30m df_daily trade entry_bar_idx pip_value⟩

/-- C2 witness: the concrete two-bar series `c2Df` with entry at bar 0;
the trade resolves (concretely to LOSS on the stop-loss hit). -/
theorem simulate_trade_exit_resolves_witness :
    (0 < c2Df.length ∧ (0 : Nat) < c2Df.length) ∧
    (((simulate_trade_exit id exCfg c2Df [] c2Trade 0 (1/10000)).result = "WIN" ∨
      (simulate_trade_exit id exCfg c2Df [] c2Trade 0 (1/10000)).result = "LOSS") ∧
     simulate_trade_exit id exCfg (c2Df.take (0 + 960)) [] c2Trade 0 (1/10000) =
       simulate_trade_exit id exCfg c2Df [] c2Trade 0 (1/10000)) ∧
    (simulate_trade_exit id exCfg c2Df [] c2Trade 0 (1/10000)).result = "LOSS" :=
  ⟨⟨by decide, by decide⟩,
   simulate_trade_exit_resolves id exCfg c2Df [] c2Trade 0 (1/10000)
     (by decide) (by decide),
   by with_unfolding_all decide⟩

/-- C10: the forward simulation changes only the exit-related fields of
the trade record; symbol, direction, entry price, entry time, stop-loss
and risk:reward ratio are returned unchanged from the input. -/
theorem simulate_trade_exit_frame (dateOf : Int → Int) (cfg : Config)
    (df_30m df_daily : List Row) (trade : BacktestTrade) (entry_bar_idx : Nat)
    (pip_value : ℚ) :
    (simulate_trade_exit dateOf cfg df_30m df_daily trade entry_bar_idx
        pip_value).symbol = trade.symbol ∧
    (simulate_trade_exit dateOf cfg df_30m df_daily trade entry_bar_idx
        pip_value).direction = trade.direction ∧
    (simulate_trade_exit dateOf cfg df_30m df_daily trade entry_bar_idx
        pip_value).entry_price = trade.entry_price ∧
    (simulate_trade_exit dateOf cfg df_30m df_daily trade entry_bar_idx
        pip_value).entry_time = trade.entry_time ∧
    (simulate_trade_exit dateOf cfg df_30m df_daily trade entry_bar_idx
        pip_value).stop_loss = trade.stop_loss ∧
    (simulate_trade_exit dateOf cfg df_30m df_daily trade entry_bar_idx
        pip_value).rr_ratio = trade.rr_ratio := by
  obtain ⟨a, b, c, d, e, f, -, -, -⟩ :=
    simulate_trade_exit_shape dateOf cfg df_30m df_daily trade entry_bar_idx pip_value
  exact ⟨a, b, c, d, e, f⟩

/-- C5: the recorded P&L of a completed trade is the signed price move
divided by the unit size ((exit − entry)/pip long, (entry − exit)/pip
short), and the risk:reward computation yields the realized price move
divided by the initial risk distance, with 0 when that distance is
zero. -/
theorem backtest_pnl_rr (dateOf : Int → Int) (cfg : Config)
    (df_30m df_daily : List Row) (trade : BacktestTrade) (entry_bar_idx : Nat)
    (pip_value : ℚ) (t' : BacktestTrade) (hpip : pip_value ≠ 0)
    (ht : t' = simulate_trade_exit dateOf cfg df_30m df_daily trade entry_bar_idx
      pip_value) :
    (trade.direction = "BUY" →
      t'.pnl_pips = (t'.exit_price - trade.entry_price) / pip_value ∧
      (compute_rr pip_value t').rr_ratio =
        (if 0 < |trade.entry_price - trade.stop_loss| then
          (t'.exit_price - trade.entry_price) / |trade.entry_price - trade.stop_loss|
         else 0)) ∧
    (trade.direction = "SELL" →
      t'.pnl_pips = (trade.entry_price - t'.exit_price) / pip_value ∧
      (compute_rr pip_value t').rr_ratio =
        (if 0 < |trade.entry_price - trade.stop_loss| then
          (trade.entry_price - t'.exit_price) / |trade.entry_price - trade.stop_loss|
         else 0)) := by
  obtain ⟨-, -, hentry, -, hstop, -, -, hbuy, hsell⟩ :=
    simulate_trade_exit_shape dateOf cfg df_30m df_daily trade entry_bar_idx pip_value
  rw [← ht] at hentry hstop hbuy hsell
  constructor <;> intro hdir
  · refine ⟨hbuy hdir, ?_⟩
    unfold compute_rr
    dsimp only
    rw [hentry, hstop]
    by_cases hrisk : 0 < |trade.entry_price - trade.stop_loss|
    · rw [if_pos hrisk, if_pos hrisk]
      dsimp only
      rw [hbuy hdir, div_mul_cancel₀ _ hpip]
    · rw [if_neg hrisk, if_neg hrisk]
  · refine ⟨hsell hdir, ?_⟩
    unfold compute_rr
    dsimp only
    rw [hentry, hstop]
    by_cases hrisk : 0 < |trade.entry_price - trade.stop_loss|
    · rw [if_pos hrisk, if_pos hrisk]
      dsimp only
      rw [hsell hdir, div_mul_cancel₀ _ hpip]
    · rw [if_neg hrisk, if_neg hrisk]

/-- C5 witness: the spec's worked scenario — a long entered at 1.1000
with stop 1.0950 and unit size 0.0001 that exits at 1.1100 yields P&L
+100.0 units and risk:reward +2.0. -/
theorem backtest_pnl_rr_witness :
    ((1/10000 : ℚ) ≠ 0 ∧
     simulate_trade_exit id exCfg c5Df [] c5Trade 0 (1/10000) =
       simulate_trade_exit id exCfg c5Df [] c5Trade 0 (1/10000)) ∧
    ((c5Trade.direction = "BUY" →
      (simulate_trade_exit id exCfg c5Df [] c5Trade 0 (1/10000)).pnl_pips =
        ((simulate_trade_exit id exCfg c5Df [] c5Trade 0 (1/10000)).exit_price -
          c5Trade.entry_price) / (1/10000) ∧
      (compute_rr (1/10000)
          (simulate_trade_exit id exCfg c5Df [] c5Trade 0 (1/10000))).rr_ratio =
        (if 0 < |c5Trade.entry_price - c5Trade.stop_loss| then
          ((simulate_trade_exit id exCfg c5Df [] c5Trade 0 (1/10000)).exit_price -
            c5Trade.entry_price) / |c5Trade.entry_price - c5Trade.stop_loss|
         else 0)) ∧
     (c5Trade.direction = "SELL" →
      (simulate_trade_exit id exCfg c5Df [] c5Trade 0 (1/10000)).pnl_pips =
        (c5Trade.entry_price -
          (simulate_trade_exit id exCfg c5Df [] c5Trade 0 (1/10000)).exit_price) /
          (1/10000) ∧
      (compute_rr (1/10000)
          (simulate_trade_exit id exCfg c5Df [] c5Trade 0 (1/10000))).rr_ratio =
        (if 0 < |c5Trade.entry_price - c5Trade.stop_loss| then
          (c5Trade.entry_price -
            (simulate_trade_exit id exCfg c5Df [] c5Trade 0 (1/10000)).exit_price) /
            |c5Trade.entry_price - c5Trade.stop_loss|
         else 0))) ∧
    (simulate_trade_exit id exCfg c5Df [] c5Trade 0 (1/10000)).pnl_pips = 100 ∧
    (compute_rr (1/10000)
        (simulate_trade_exit id exCfg c5Df [] c5Trade 0 (1/10000))).rr_ratio = 2 :=
  ⟨⟨by norm_num, rfl⟩,
   backtest_pnl_rr id exCfg c5Df [] c5Trade 0 (1/10000)
     (simulate_trade_exit id exCfg c5Df [] c5Trade 0 (1/10000)) (by norm_num) rfl,
   by with_unfolding_all decide, by with_unfolding_all decide⟩

/-- C7 witness: the spec's gap scenario (first candle's high 10.0, third
candle's low 10.5) yields the up gap with bottom 10.0, top 10.5,
midpoint 10.25. -/
theorem find_fvgs_gap_geometry_witness :
    c7Gap ∈ find_fvgs (fun _ => true) true c7Df ∧
    (c7Gap.bottom < c7Gap.top ∧ c7Gap.midpoint = (c7Gap.top + c7Gap.bottom) / 2 ∧
     c7Gap.bottom < c7Gap.midpoint ∧ c7Gap.midpoint < c7Gap.top) :=
  ⟨by with_unfolding_all decide,
   find_fvgs_gap_geometry (fun _ => true) true c7Df c7Gap
     (by with_unfolding_all decide)⟩

end ForexBot
